import Mathlib

/-!
Shallow embedding of the trackmoji backend (Express + Prisma + Gemini), covering the
transaction-processing pipeline of `src/controllers/transaction.controller.js`, the
analyzer and query engine of `src/controllers/users.controller.js`, and `createUser`.

Conventions of the embedding:
* JSON / JS values that may be `undefined` or `null` are `Option`-typed; JS numbers
  are rationals (`Rat`); JS truthiness on strings and numbers is `truthyStr` /
  `truthyNum` (empty string, 0, `undefined`, `null` are falsy).
* The relational store (Prisma) is an explicit `Store` value: lists of rows plus a
  fresh-id counter; controllers take a store and return it (updated on writes).
* Outbound model calls are abstracted: the analyzer takes the outcome of the
  generate-and-parse attempt as an `Except String` value (`.error msg` is any thrown
  failure, carrying the message); the orchestrator takes the analyzer / query engine
  as a function argument. JS `new Date(string)` is an abstract `parseDate` argument
  returning `none` for an Invalid Date, and `new Date()` is an explicit `now`.
-/

namespace Trackmoji

/-- JS truthiness of a possibly-absent string: `undefined`, `null` and `""` are falsy. -/
def truthyStr : Option String → Bool
  | none => false
  | some s => !s.isEmpty

/-- JS truthiness of a possibly-absent number: `undefined`, `null` and `0` are falsy. -/
def truthyNum : Option Rat → Bool
  | none => false
  | some q => q != 0

/-- JS `x || null` on a possibly-absent string: a falsy value becomes `null` (`none`). -/
def orNull (o : Option String) : Option String :=
  if truthyStr o then o else none

/-- JS `x || d` on a possibly-absent string: a falsy value becomes the default. -/
def jsOrStr (o : Option String) (d : String) : String :=
  if truthyStr o then o.getD d else d

/-- JS `String.prototype.toLowerCase()` (the compared literals are ASCII). -/
def lowerStr (s : String) : String :=
  String.mk (s.data.map Char.toLower)

/-- The parsed JSON object produced by the analysis model call (all fields are in the
schema's `required` list, but the embedding keeps them optional, as `JSON.parse` of an
arbitrary payload would). The `error` field is set only by the degraded fallback. -/
structure Analysis where
  type : Option String
  amount : Option Rat
  description : Option String
  category : Option String
  source : Option String
  date : Option String
  confidence : Option Rat
  error : Option String := none
  deriving Repr, DecidableEq

/-- Embeds `analyzeTransaction` of `src/utils/geminiClient.js` (the gemini client, also
present in `src/controllers/users.controller.js` lines 101-186). `gen` is the outcome
of the `ai.models.generateContent` call followed by the `result.text` check and
`JSON.parse`: `.ok j` when a JSON object was parsed, `.error msg` when anything threw
(service failure, non-string `result.text`, malformed JSON). `nowIso` stands for
`new Date().toISOString()`. The catch branch returns the degraded analysis; the success
branch defaults a falsy `date` to now. -/
def analyzeTransaction (text : String) (nowIso : String)
    (gen : Except String Analysis) : Analysis :=
  match gen with
  | .ok j => if truthyStr j.date then j else { j with date := some nowIso }
  | .error msg =>
      { type := some "unknown"
        amount := some 0
        description := some text
        category := some "unknown"
        source := some "unknown"
        date := some nowIso
        confidence := some 0
        error := some msg }

/-- A row of the `User` table: unique phone, optional name. -/
structure User where
  id : Nat
  phone : String
  name : Option String
  deriving Repr, DecidableEq

/-- A row of the unified `Transaction` table. Dates are epoch instants (`Nat`). -/
structure TransactionRow where
  id : Nat
  amount : Rat
  type : String
  description : Option String
  category : Option String
  source : Option String
  date : Nat
  userId : Nat
  deriving Repr, DecidableEq

/-- A row of the `Credit` table. -/
structure CreditRow where
  id : Nat
  amount : Rat
  source : Option String
  description : Option String
  date : Nat
  userId : Nat
  deriving Repr, DecidableEq

/-- A row of the `Debit` table. -/
structure DebitRow where
  id : Nat
  amount : Rat
  category : Option String
  description : Option String
  date : Nat
  userId : Nat
  deriving Repr, DecidableEq

/-- The relational store: the four tables and a fresh-id counter. -/
structure Store where
  users : List User
  transactions : List TransactionRow
  credits : List CreditRow
  debits : List DebitRow
  nextId : Nat
  deriving Repr, DecidableEq

/-- Model of `prisma.user.findUnique({ where: { phone } })`. -/
def findUserByPhone (phone : String) (s : Store) : Option User :=
  s.users.find? (fun u => u.phone == phone)

/-- Model of `prisma.user.create({ data: { phone, name } })`: appends one row with a fresh id. -/
def dbCreateUser (phone : String) (name : Option String) (s : Store) : User × Store :=
  let u : User := { id := s.nextId, phone := phone, name := name }
  (u, { s with users := s.users ++ [u], nextId := s.nextId + 1 })

/-- A row of one of the type-specific tables, as returned in the 201 response's
`specificTransaction` field. -/
inductive SpecificRow where
  | credit (c : CreditRow)
  | debit (d : DebitRow)
  deriving Repr, DecidableEq

/-- The condensed `analysis` object echoed in the 201 response: raw confidence,
category and source from the analysis, plus the normalized date. -/
structure AnalysisEcho where
  confidence : Option Rat
  category : Option String
  source : Option String
  date : Nat
  deriving Repr, DecidableEq

/-- The response of `processTransaction`: 400 missing fields, 422 invalid analysis
(echoing the partial analysis), or 201 with the created rows and the echo. -/
inductive ProcessResult where
  | missingFields
  | invalidAnalysis (partialAnalysis : Analysis)
  | created (transaction : TransactionRow) (specificTransaction : Option SpecificRow)
      (analysis : AnalysisEcho)
  deriving Repr, DecidableEq

/-- The HTTP status of each `processTransaction` response. -/
def ProcessResult.status : ProcessResult → Nat
  | .missingFields => 400
  | .invalidAnalysis _ => 422
  | .created _ _ _ => 201

/-- Step 5 of `processTransaction` (lines 60-71): `new Date(analysis.date)` with a
fallback to the current date when the field is absent or the parse yields an Invalid
Date (`parseDate` returns `none`). -/
def normDate (parseDate : String → Option Nat) (now : Nat) : Option String → Nat
  | some ds => (parseDate ds).getD now
  | none => now

/-- Steps 5-8 of `processTransaction` (lines 60-129), after user resolution: normalize
the date, create the unified `Transaction` row, then branch on the lowercased type to
create a `Credit` or `Debit` row (any other type: no specific row), and build the 201
response. `analysis` has already passed the falsy check, so its `type`/`amount` are
present; `getD` only discharges the `Option`. -/
def persistAnalyzed (analysis : Analysis) (user : User) (parseDate : String → Option Nat)
    (now : Nat) (s : Store) : ProcessResult × Store :=
  let transactionDate := normDate parseDate now analysis.date
  let ty := analysis.type.getD ""
  let amt := analysis.amount.getD 0
  let t : TransactionRow :=
    { id := s.nextId
      amount := amt
      type := ty
      description := orNull analysis.description
      category := orNull analysis.category
      source := orNull analysis.source
      date := transactionDate
      userId := user.id }
  let s2 : Store := { s with transactions := s.transactions ++ [t], nextId := s.nextId + 1 }
  let echo : AnalysisEcho :=
    { confidence := analysis.confidence
      category := analysis.category
      source := analysis.source
      date := transactionDate }
  if lowerStr ty = "credit" then
    let c : CreditRow :=
      { id := s2.nextId
        amount := amt
        source := orNull analysis.source
        description := orNull analysis.description
        date := transactionDate
        userId := user.id }
    (.created t (some (.credit c)) echo,
      { s2 with credits := s2.credits ++ [c], nextId := s2.nextId + 1 })
  else if lowerStr ty = "debit" then
    let d : DebitRow :=
      { id := s2.nextId
        amount := amt
        category := orNull analysis.category
        description := orNull analysis.description
        date := transactionDate
        userId := user.id }
    (.created t (some (.debit d)) echo,
      { s2 with debits := s2.debits ++ [d], nextId := s2.nextId + 1 })
  else
    (.created t none echo, s2)

/-- Step 4 of `processTransaction` (lines 44-58): look the user up by phone and, when
absent, create one with the phone only (name unset) — the implicit upsert. -/
def findOrCreateUser (userPhone : String) (s : Store) : User × Store :=
  match findUserByPhone userPhone s with
  | some u => (u, s)
  | none => dbCreateUser userPhone none s

/-- Embeds `processTransaction` of `src/controllers/transaction.controller.js` (lines
13-135). `analyze` stands for the outbound `analyzeTransaction` call. The happy path is
`persistAnalyzed` after `findOrCreateUser`. -/
def processTransaction (text userPhone : String) (analyze : String → String → Analysis)
    (parseDate : String → Option Nat) (now : Nat) (s : Store) : ProcessResult × Store :=
  if text = "" ∨ userPhone = "" then (.missingFields, s)
  else
    let analysis := analyze text userPhone
    if truthyStr analysis.type = false ∨ truthyNum analysis.amount = false then
      (.invalidAnalysis analysis, s)
    else
      let us := findOrCreateUser userPhone s
      persistAnalyzed analysis us.1 parseDate now us.2

/-- The upsert step of the JS `reduce` building a breakdown object:
`acc[key] = (acc[key] || 0) + amt`, on an association-list model of the object. -/
def bumpKey (acc : List (String × Rat)) (key : String) (amt : Rat) : List (String × Rat) :=
  match acc.find? (fun p => p.1 == key) with
  | some _ => acc.map (fun p => if p.1 == key then (p.1, p.2 + amt) else p)
  | none => acc ++ [(key, amt)]

/-- The `data` object of the 200 summary response. Breakdown objects are modelled as
association lists (insertion order preserved, as JS objects do). -/
structure SummaryData where
  totalDebit : Rat
  totalCredit : Rat
  balance : Rat
  debitCount : Nat
  creditCount : Nat
  categoryBreakdown : List (String × Rat)
  sourceBreakdown : List (String × Rat)
  deriving Repr, DecidableEq

/-- The response of `getTransactionSummary`: 400 missing phone, 404 unknown user, or
200 with the summary. -/
inductive SummaryResult where
  | missingPhone
  | notFound
  | ok (data : SummaryData)
  deriving Repr, DecidableEq

/-- The HTTP status of each `getTransactionSummary` response. -/
def SummaryResult.status : SummaryResult → Nat
  | .missingPhone => 400
  | .notFound => 404
  | .ok _ => 200

/-- Embeds `getTransactionSummary` of `src/controllers/transaction.controller.js`
(lines 291-384): resolve the user (no upsert here), read the user's rows of the two
type-specific tables only, total each with `reduce`, `balance = totalCredit -
totalDebit`, and build the category (debits) and source (credits) breakdowns, with
falsy keys replaced by literals. The unified `Transaction` table is never read. -/
def getTransactionSummary (userPhone : String) (s : Store) : SummaryResult :=
  if userPhone = "" then .missingPhone
  else
    match findUserByPhone userPhone s with
    | none => .notFound
    | some user =>
        let debits := s.debits.filter (fun d => d.userId == user.id)
        let credits := s.credits.filter (fun c => c.userId == user.id)
        let totalDebit := debits.foldl (fun acc d => acc + d.amount) 0
        let totalCredit := credits.foldl (fun acc c => acc + c.amount) 0
        let balance := totalCredit - totalDebit
        .ok
          { totalDebit := totalDebit
            totalCredit := totalCredit
            balance := balance
            debitCount := debits.length
            creditCount := credits.length
            categoryBreakdown :=
              debits.foldl (fun acc d => bumpKey acc (jsOrStr d.category "uncategorized") d.amount) []
            sourceBreakdown :=
              credits.foldl (fun acc c => bumpKey acc (jsOrStr c.source "unknown") c.amount) [] }

/-- An item of the query model's `relevantTransactions` array (all properties
optional in the schema). -/
structure TxRef where
  id : Option String
  amount : Option Rat
  description : Option String
  date : Option String
  deriving Repr, DecidableEq

/-- The parsed JSON object produced by the query model call; only `answer` is in the
schema's `required` list, so every field is optional. -/
structure QueryJson where
  answer : Option String
  insights : Option (List String)
  suggestedCategories : Option (List String)
  relevantTransactions : Option (List TxRef)
  totalAmount : Option Rat
  deriving Repr, DecidableEq

/-- What the gemini-client `queryTransactions` returns to the orchestrator. On the
success path every field below is `some`; on the degraded path only `answer` and
`error` are populated and the other fields stay `undefined` (`none`). -/
structure QueryAnswer where
  answer : String
  insights : Option (List String)
  suggestedCategories : Option (List String)
  relevantTransactions : Option (List TxRef)
  totalAmount : Option Rat
  error : Option String
  deriving Repr, DecidableEq

/-- Embeds `queryTransactions` of `src/utils/geminiClient.js` (the gemini client, also
in `src/controllers/users.controller.js` lines 195-286). `gen` abstracts the model
call, `result.text` check and `JSON.parse`, as for the analyzer; the question and the
transaction list only feed the prompt, so they do not appear. On success each absent
field is defaulted (`answer` to the static could-not-analyze message — JS `||`, so an
empty string is also replaced; arrays to `[]`; `totalAmount` to `0`); on any thrown
failure the catch branch returns only the static apology plus the error message. -/
def queryEngineRun (gen : Except String QueryJson) : QueryAnswer :=
  match gen with
  | .ok j =>
      { answer := jsOrStr j.answer "I couldn't analyze your transactions properly."
        insights := some (j.insights.getD [])
        suggestedCategories := some (j.suggestedCategories.getD [])
        relevantTransactions := some (j.relevantTransactions.getD [])
        totalAmount := some (j.totalAmount.getD 0)
        error := none }
  | .error msg =>
      { answer := "Sorry, I encountered an error while analyzing your transactions."
        insights := none
        suggestedCategories := none
        relevantTransactions := none
        totalAmount := none
        error := some msg }

/-- Insert a transaction into a list sorted by date descending (model of the store's
`orderBy: { date: 'desc' }`). -/
def insertByDateDesc (t : TransactionRow) : List TransactionRow → List TransactionRow
  | [] => [t]
  | x :: xs => if t.date ≤ x.date then x :: insertByDateDesc t xs else t :: x :: xs

/-- Sort a transaction list by date descending. -/
def sortByDateDesc (l : List TransactionRow) : List TransactionRow :=
  l.foldr insertByDateDesc []

/-- Model of `prisma.transaction.findMany` for a user, ordered by date descending. -/
def userTransactions (user : User) (s : Store) : List TransactionRow :=
  sortByDateDesc (s.transactions.filter (fun t => t.userId == user.id))

/-- The `data` object of the 200 query response built by the orchestrator. `insights`
and `suggestedCategories` are passed through unchanged, so they can be `undefined`
(absent from the JSON body, `none` here); the other two are re-defaulted with `||`. -/
structure QueryBody where
  answer : String
  insights : Option (List String)
  suggestedCategories : Option (List String)
  relevantTransactions : List TxRef
  totalAmount : Rat
  transactionCount : Nat
  deriving Repr, DecidableEq

/-- The response of the orchestrator-level `queryTransactions`: 400 missing fields,
404 unknown user, 200 canned answer (empty history), or 200 shaped engine answer. -/
inductive QueryResult where
  | missingFields
  | notFound
  | canned (answer : String)
  | answered (data : QueryBody)
  deriving Repr, DecidableEq

/-- The HTTP status of each orchestrator-level `queryTransactions` response. -/
def QueryResult.status : QueryResult → Nat
  | .missingFields => 400
  | .notFound => 404
  | .canned _ => 200
  | .answered _ => 200

/-- Embeds `queryTransactions` of `src/controllers/transaction.controller.js` (lines
204-283). `engine` stands for the outbound gemini-client call; the returned `Bool`
records whether it was invoked. The store is returned unchanged on every path: this
handler performs reads only. -/
def queryTransactionsCtrl (question userPhone : String)
    (engine : String → List TransactionRow → String → QueryAnswer)
    (s : Store) : QueryResult × Bool × Store :=
  if question = "" ∨ userPhone = "" then (.missingFields, false, s)
  else
    match findUserByPhone userPhone s with
    | none => (.notFound, false, s)
    | some user =>
        let transactions := userTransactions user s
        if transactions.length = 0 then
          (.canned "You don't have any transactions yet.", false, s)
        else
          let analysis := engine question transactions userPhone
          (.answered
            { answer := analysis.answer
              insights := analysis.insights
              suggestedCategories := analysis.suggestedCategories
              relevantTransactions := analysis.relevantTransactions.getD []
              totalAmount := analysis.totalAmount.getD 0
              transactionCount := transactions.length }, true, s)

/-- The response of `createUser`: 400 missing phone, 400 duplicate phone, or 201 with
the new user. -/
inductive CreateUserResult where
  | missingPhone
  | duplicatePhone
  | created (user : User)
  deriving Repr, DecidableEq

/-- The HTTP status of each `createUser` response. -/
def CreateUserResult.status : CreateUserResult → Nat
  | .missingPhone => 400
  | .duplicatePhone => 400
  | .created _ => 201

/-- Embeds `createUser` of `src/controllers/users.controller.js` (lines 4-56):
reject a falsy phone, reject a phone already present, else create the row with
`name || null`. -/
def createUser (userPhone : String) (name : Option String) (s : Store) :
    CreateUserResult × Store :=
  if userPhone = "" then (.missingPhone, s)
  else
    match findUserByPhone userPhone s with
    | some _ => (.duplicatePhone, s)
    | none =>
        let us := dbCreateUser userPhone (orNull name) s
        (.created us.1, us.2)

/-! Helper lemmas about user resolution and the persistence step. -/

theorem findOrCreateUser_transactions (userPhone : String) (s : Store) :
    ((findOrCreateUser userPhone s).2).transactions = s.transactions := by
  unfold findOrCreateUser dbCreateUser
  cases findUserByPhone userPhone s <;> rfl

theorem findOrCreateUser_credits (userPhone : String) (s : Store) :
    ((findOrCreateUser userPhone s).2).credits = s.credits := by
  unfold findOrCreateUser dbCreateUser
  cases findUserByPhone userPhone s <;> rfl

theorem findOrCreateUser_debits (userPhone : String) (s : Store) :
    ((findOrCreateUser userPhone s).2).debits = s.debits := by
  unfold findOrCreateUser dbCreateUser
  cases findUserByPhone userPhone s <;> rfl

theorem findOrCreateUser_absent (userPhone : String) (s : Store)
    (hab : findUserByPhone userPhone s = none) :
    findOrCreateUser userPhone s =
      ({ id := s.nextId, phone := userPhone, name := none },
       { s with users := s.users ++ [{ id := s.nextId, phone := userPhone, name := none }],
                nextId := s.nextId + 1 }) := by
  unfold findOrCreateUser dbCreateUser
  rw [hab]

theorem persistAnalyzed_users (a : Analysis) (u : User) (pd : String → Option Nat)
    (now : Nat) (s : Store) : ((persistAnalyzed a u pd now s).2).users = s.users := by
  simp only [persistAnalyzed]
  split
  · rfl
  · split <;> rfl

theorem persistAnalyzed_credit (a : Analysis) (u : User) (pd : String → Option Nat)
    (now : Nat) (s : Store) (h : lowerStr (a.type.getD "") = "credit") :
    persistAnalyzed a u pd now s =
      (.created
        { id := s.nextId
          amount := a.amount.getD 0
          type := a.type.getD ""
          description := orNull a.description
          category := orNull a.category
          source := orNull a.source
          date := normDate pd now a.date
          userId := u.id }
        (some (.credit
          { id := s.nextId + 1
            amount := a.amount.getD 0
            source := orNull a.source
            description := orNull a.description
            date := normDate pd now a.date
            userId := u.id }))
        { confidence := a.confidence
          category := a.category
          source := a.source
          date := normDate pd now a.date },
       { s with
          transactions := s.transactions ++
            [{ id := s.nextId
               amount := a.amount.getD 0
               type := a.type.getD ""
               description := orNull a.description
               category := orNull a.category
               source := orNull a.source
               date := normDate pd now a.date
               userId := u.id }]
          credits := s.credits ++
            [{ id := s.nextId + 1
               amount := a.amount.getD 0
               source := orNull a.source
               description := orNull a.description
               date := normDate pd now a.date
               userId := u.id }]
          nextId := s.nextId + 2 }) := by
  simp only [persistAnalyzed]
  rw [if_pos h]

theorem persistAnalyzed_debit (a : Analysis) (u : User) (pd : String → Option Nat)
    (now : Nat) (s : Store) (h : lowerStr (a.type.getD "") = "debit") :
    persistAnalyzed a u pd now s =
      (.created
        { id := s.nextId
          amount := a.amount.getD 0
          type := a.type.getD ""
          description := orNull a.description
          category := orNull a.category
          source := orNull a.source
          date := normDate pd now a.date
          userId := u.id }
        (some (.debit
          { id := s.nextId + 1
            amount := a.amount.getD 0
            category := orNull a.category
            description := orNull a.description
            date := normDate pd now a.date
            userId := u.id }))
        { confidence := a.confidence
          category := a.category
          source := a.source
          date := normDate pd now a.date },
       { s with
          transactions := s.transactions ++
            [{ id := s.nextId
               amount := a.amount.getD 0
               type := a.type.getD ""
               description := orNull a.description
               category := orNull a.category
               source := orNull a.source
               date := normDate pd now a.date
               userId := u.id }]
          debits := s.debits ++
            [{ id := s.nextId + 1
               amount := a.amount.getD 0
               category := orNull a.category
               description := orNull a.description
               date := normDate pd now a.date
               userId := u.id }]
          nextId := s.nextId + 2 }) := by
  have h2 : ¬ lowerStr (a.type.getD "") = "credit" := by
    rw [h]; decide
  simp only [persistAnalyzed]
  rw [if_neg h2, if_pos h]

theorem persistAnalyzed_other (a : Analysis) (u : User) (pd : String → Option Nat)
    (now : Nat) (s : Store) (hc : ¬ lowerStr (a.type.getD "") = "credit")
    (hd : ¬ lowerStr (a.type.getD "") = "debit") :
    persistAnalyzed a u pd now s =
      (.created
        { id := s.nextId
          amount := a.amount.getD 0
          type := a.type.getD ""
          description := orNull a.description
          category := orNull a.category
          source := orNull a.source
          date := normDate pd now a.date
          userId := u.id }
        none
        { confidence := a.confidence
          category := a.category
          source := a.source
          date := normDate pd now a.date },
       { s with
          transactions := s.transactions ++
            [{ id := s.nextId
               amount := a.amount.getD 0
               type := a.type.getD ""
               description := orNull a.description
               category := orNull a.category
               source := orNull a.source
               date := normDate pd now a.date
               userId := u.id }]
          nextId := s.nextId + 1 }) := by
  simp only [persistAnalyzed]
  rw [if_neg hc, if_neg hd]

theorem processTransaction_valid (text userPhone : String)
    (analyze : String → String → Analysis) (parseDate : String → Option Nat) (now : Nat)
    (s : Store) (a : Analysis) (ha : analyze text userPhone = a)
    (htext : text ≠ "") (hphone : userPhone ≠ "")
    (hty : truthyStr a.type = true) (hamt : truthyNum a.amount = true) :
    processTransaction text userPhone analyze parseDate now s =
      persistAnalyzed a (findOrCreateUser userPhone s).1 parseDate now
        (findOrCreateUser userPhone s).2 := by
  simp only [processTransaction, ha]
  rw [if_neg (not_or.mpr ⟨htext, hphone⟩),
    if_neg (not_or.mpr ⟨by rw [hty]; decide, by rw [hamt]; decide⟩)]

end Trackmoji

namespace Trackmoji

/-- C3: `analyzeTransaction` never raises: on any internal failure (generation error,
invalid `result.text`, JSON parse error — all `.error msg` here) it returns, for every
input text, the degraded analysis with `type="unknown"`, `amount=0`, `description` the
input text, `category="unknown"`, `source="unknown"`, `date` the current ISO-8601
time, `confidence=0`, and the failure message in `error`. -/
theorem c3_analyze_never_fails_degraded_shape (text nowIso msg : String) :
    analyzeTransaction text nowIso (.error msg) =
      { type := some "unknown"
        amount := some 0
        description := some text
        category := some "unknown"
        source := some "unknown"
        date := some nowIso
        confidence := some 0
        error := some msg } := rfl

end Trackmoji

namespace Trackmoji

/-- C2: whenever the analysis has a falsy `type` or a falsy `amount` (the degraded
fallback with `amount = 0` included, as is `amount = 0` with a valid type), `process`
responds 422 echoing the partial analysis, and the store is unchanged: no Transaction,
Credit or Debit row is created. -/
theorem c2_invalid_analysis_rejected_422 (text userPhone : String)
    (analyze : String → String → Analysis) (parseDate : String → Option Nat) (now : Nat)
    (s : Store) (a : Analysis) (ha : analyze text userPhone = a)
    (htext : text ≠ "") (hphone : userPhone ≠ "")
    (hbad : truthyStr a.type = false ∨ truthyNum a.amount = false) :
    processTransaction text userPhone analyze parseDate now s = (.invalidAnalysis a, s) ∧
    ProcessResult.status (.invalidAnalysis a) = 422 := by
  refine ⟨?_, rfl⟩
  simp only [processTransaction, ha]
  rw [if_neg (not_or.mpr ⟨htext, hphone⟩), if_pos hbad]

/-- C1: for a request with both fields non-empty whose analysis has a truthy type
lowercasing to credit or debit and a truthy amount, `process` answers 201, appends
exactly one row to the unified Transaction table and exactly one row to the matching
type-specific table (leaving the other one unchanged), and the response carries both
rows with the same amount and the same normalized date, the condensed analysis echoing
that date as well. -/
theorem c1_process_dual_write (text userPhone : String)
    (analyze : String → String → Analysis) (parseDate : String → Option Nat) (now : Nat)
    (s : Store) (a : Analysis) (ha : analyze text userPhone = a)
    (htext : text ≠ "") (hphone : userPhone ≠ "")
    (hty : truthyStr a.type = true) (hamt : truthyNum a.amount = true)
    (hcd : lowerStr (a.type.getD "") = "credit" ∨ lowerStr (a.type.getD "") = "debit") :
    ∃ t s',
      (processTransaction text userPhone analyze parseDate now s).2 = s' ∧
      s'.transactions = s.transactions ++ [t] ∧
      t.amount = a.amount.getD 0 ∧
      ∃ spec,
        (processTransaction text userPhone analyze parseDate now s).1 =
          .created t (some spec)
            { confidence := a.confidence, category := a.category, source := a.source,
              date := t.date } ∧
        ProcessResult.status (processTransaction text userPhone analyze parseDate now s).1
          = 201 ∧
        match spec with
        | .credit c => lowerStr (a.type.getD "") = "credit" ∧
            s'.credits = s.credits ++ [c] ∧ s'.debits = s.debits ∧
            c.amount = t.amount ∧ c.date = t.date
        | .debit d => lowerStr (a.type.getD "") = "debit" ∧
            s'.debits = s.debits ++ [d] ∧ s'.credits = s.credits ∧
            d.amount = t.amount ∧ d.date = t.date := by
  have hmain := processTransaction_valid text userPhone analyze parseDate now s a ha
    htext hphone hty hamt
  rcases hcd with h | h
  · rw [hmain, persistAnalyzed_credit _ _ _ _ _ h]
    refine ⟨_, _, rfl, ?_, rfl, SpecificRow.credit _, rfl, rfl, h, ?_, ?_, rfl, rfl⟩
    · rw [findOrCreateUser_transactions]
    · rw [findOrCreateUser_credits]
    · rw [findOrCreateUser_debits]
  · rw [hmain, persistAnalyzed_debit _ _ _ _ _ h]
    refine ⟨_, _, rfl, ?_, rfl, SpecificRow.debit _, rfl, rfl, h, ?_, ?_, rfl, rfl⟩
    · rw [findOrCreateUser_transactions]
    · rw [findOrCreateUser_debits]
    · rw [findOrCreateUser_credits]

/-- C4: when the analysis passes validation (truthy type and amount) but its lowercased
type is neither credit nor debit, `process` still answers 201 and persists the unified
Transaction row with the type string exactly as returned (case-preserved), while no
type-specific row is created: the Credit and Debit tables are unchanged. -/
theorem c4_unknown_type_silent_noop (text userPhone : String)
    (analyze : String → String → Analysis) (parseDate : String → Option Nat) (now : Nat)
    (s : Store) (a : Analysis) (ha : analyze text userPhone = a)
    (htext : text ≠ "") (hphone : userPhone ≠ "")
    (hty : truthyStr a.type = true) (hamt : truthyNum a.amount = true)
    (hnc : lowerStr (a.type.getD "") ≠ "credit")
    (hnd : lowerStr (a.type.getD "") ≠ "debit") :
    ∃ t s',
      processTransaction text userPhone analyze parseDate now s =
        (.created t none
          { confidence := a.confidence, category := a.category, source := a.source,
            date := t.date }, s') ∧
      ProcessResult.status (processTransaction text userPhone analyze parseDate now s).1
        = 201 ∧
      s'.transactions = s.transactions ++ [t] ∧
      t.type = a.type.getD "" ∧
      t.amount = a.amount.getD 0 ∧
      s'.credits = s.credits ∧
      s'.debits = s.debits := by
  have hmain := processTransaction_valid text userPhone analyze parseDate now s a ha
    htext hphone hty hamt
  rw [hmain, persistAnalyzed_other _ _ _ _ _ hnc hnd]
  refine ⟨_, _, rfl, rfl, ?_, rfl, rfl, ?_, ?_⟩
  · rw [findOrCreateUser_transactions]
  · exact findOrCreateUser_credits userPhone s
  · exact findOrCreateUser_debits userPhone s

/-- C9: on the 422 path (falsy type or amount) the whole persisted state is unchanged —
validation precedes user resolution, so even for a phone with no user row the implicit
upsert does not fire and the user table is exactly as before. -/
theorem c9_reject_frame_no_user_upsert (text userPhone : String)
    (analyze : String → String → Analysis) (parseDate : String → Option Nat) (now : Nat)
    (s : Store) (a : Analysis) (ha : analyze text userPhone = a)
    (htext : text ≠ "") (hphone : userPhone ≠ "")
    (hbad : truthyStr a.type = false ∨ truthyNum a.amount = false)
    (hab : findUserByPhone userPhone s = none) :
    (processTransaction text userPhone analyze parseDate now s).2 = s ∧
    ((processTransaction text userPhone analyze parseDate now s).2).users = s.users ∧
    ProcessResult.status (processTransaction text userPhone analyze parseDate now s).1
      = 422 := by
  have h : processTransaction text userPhone analyze parseDate now s =
      (.invalidAnalysis a, s) := by
    simp only [processTransaction, ha]
    rw [if_neg (not_or.mpr ⟨htext, hphone⟩), if_pos hbad]
  rw [h]
  exact ⟨rfl, rfl, rfl⟩

end Trackmoji

namespace Trackmoji

/-! Further helper lemmas: folds as sums, sorting lengths, `find?` over append. -/

theorem foldl_add_eq_sum {α : Type} (f : α → Rat) (l : List α) (init : Rat) :
    l.foldl (fun acc x => acc + f x) init = init + (l.map f).sum := by
  induction l generalizing init with
  | nil => simp
  | cons x xs ih => simp [ih, add_assoc]

theorem insertByDateDesc_length (t : TransactionRow) (l : List TransactionRow) :
    (insertByDateDesc t l).length = l.length + 1 := by
  induction l with
  | nil => rfl
  | cons x xs ih =>
      simp only [insertByDateDesc]
      split
      · simp [ih]
      · simp

theorem sortByDateDesc_length (l : List TransactionRow) :
    (sortByDateDesc l).length = l.length := by
  induction l with
  | nil => rfl
  | cons x xs ih =>
      show (insertByDateDesc x (sortByDateDesc xs)).length = xs.length + 1
      rw [insertByDateDesc_length, ih]

theorem find?_append_of_none {α : Type} (p : α → Bool) (l1 l2 : List α)
    (h : l1.find? p = none) : (l1 ++ l2).find? p = l2.find? p := by
  induction l1 with
  | nil => rfl
  | cons x xs ih =>
      cases hx : p x with
      | true => rw [List.find?_cons_of_pos _ hx] at h; exact absurd h (by simp)
      | false =>
          rw [List.find?_cons_of_neg _ (by simp [hx])] at h
          rw [List.cons_append, List.find?_cons_of_neg _ (by simp [hx]), ih h]

/-- C5: for every store and every phone resolving to a user, the summary is a 200
whose `totalDebit` is the sum of the amounts of the user's Debit rows, whose
`totalCredit` is the sum of the amounts of the user's Credit rows, and whose `balance`
is exactly `totalCredit - totalDebit`; moreover the unified Transaction table is not
consulted: replacing it by any list leaves the summary unchanged. -/
theorem c5_summary_balance_round_trip (userPhone : String) (s : Store) (user : User)
    (hphone : userPhone ≠ "") (hfind : findUserByPhone userPhone s = some user) :
    ∃ d, getTransactionSummary userPhone s = .ok d ∧
      SummaryResult.status (.ok d) = 200 ∧
      d.totalDebit =
        ((s.debits.filter (fun r => r.userId == user.id)).map (fun r => r.amount)).sum ∧
      d.totalCredit =
        ((s.credits.filter (fun r => r.userId == user.id)).map (fun r => r.amount)).sum ∧
      d.balance = d.totalCredit - d.totalDebit ∧
      ∀ ts : List TransactionRow,
        getTransactionSummary userPhone { s with transactions := ts } =
          getTransactionSummary userPhone s := by
  have hred : ∀ s0 : Store, findUserByPhone userPhone s0 = some user →
      getTransactionSummary userPhone s0 = .ok
        { totalDebit := (s0.debits.filter (fun d => d.userId == user.id)).foldl
            (fun acc d => acc + d.amount) 0
          totalCredit := (s0.credits.filter (fun c => c.userId == user.id)).foldl
            (fun acc c => acc + c.amount) 0
          balance := (s0.credits.filter (fun c => c.userId == user.id)).foldl
              (fun acc c => acc + c.amount) 0 -
            (s0.debits.filter (fun d => d.userId == user.id)).foldl
              (fun acc d => acc + d.amount) 0
          debitCount := (s0.debits.filter (fun d => d.userId == user.id)).length
          creditCount := (s0.credits.filter (fun c => c.userId == user.id)).length
          categoryBreakdown := (s0.debits.filter (fun d => d.userId == user.id)).foldl
            (fun acc d => bumpKey acc (jsOrStr d.category "uncategorized") d.amount) []
          sourceBreakdown := (s0.credits.filter (fun c => c.userId == user.id)).foldl
            (fun acc c => bumpKey acc (jsOrStr c.source "unknown") c.amount) [] } := by
    intro s0 hf
    simp only [getTransactionSummary]
    rw [if_neg hphone, hf]
  refine ⟨_, hred s hfind, rfl, ?_, ?_, rfl, ?_⟩
  · simp only [foldl_add_eq_sum, zero_add]
  · simp only [foldl_add_eq_sum, zero_add]
  · intro ts
    rw [hred s hfind, hred { s with transactions := ts } hfind]

/-- C6: for a user that exists but owns zero transactions, the query endpoint answers
200 with the canned no-transactions answer and the query engine is never invoked (the
invocation flag is false, and the result does not depend on the engine at all). -/
theorem c6_query_empty_history_short_circuit (question userPhone : String)
    (engine : String → List TransactionRow → String → QueryAnswer)
    (s : Store) (user : User) (hq : question ≠ "") (hphone : userPhone ≠ "")
    (hfind : findUserByPhone userPhone s = some user)
    (hempty : s.transactions.filter (fun t => t.userId == user.id) = []) :
    queryTransactionsCtrl question userPhone engine s =
      (.canned "You don't have any transactions yet.", false, s) ∧
    QueryResult.status (.canned "You don't have any transactions yet.") = 200 := by
  refine ⟨?_, rfl⟩
  simp only [queryTransactionsCtrl]
  rw [if_neg (not_or.mpr ⟨hq, hphone⟩), hfind]
  simp [userTransactions, hempty, sortByDateDesc]

/-- C7: the user-resolution policy diverges by entry point. With the same absent
phone, a `process` request whose analysis passes validation appends exactly one user
row holding the phone and no name (the implicit upsert), while a `query` request
answers 404 NotFound, invokes no engine, and leaves the store untouched. -/
theorem c7_upsert_on_write_strict_on_query (text question userPhone : String)
    (analyze : String → String → Analysis) (parseDate : String → Option Nat) (now : Nat)
    (engine : String → List TransactionRow → String → QueryAnswer) (s : Store)
    (a : Analysis) (ha : analyze text userPhone = a)
    (htext : text ≠ "") (hq : question ≠ "") (hphone : userPhone ≠ "")
    (hty : truthyStr a.type = true) (hamt : truthyNum a.amount = true)
    (hab : findUserByPhone userPhone s = none) :
    ((processTransaction text userPhone analyze parseDate now s).2).users =
      s.users ++ [{ id := s.nextId, phone := userPhone, name := none }] ∧
    queryTransactionsCtrl question userPhone engine s = (.notFound, false, s) ∧
    QueryResult.status .notFound = 404 := by
  refine ⟨?_, ?_, rfl⟩
  · rw [processTransaction_valid text userPhone analyze parseDate now s a ha htext
      hphone hty hamt, persistAnalyzed_users, findOrCreateUser_absent userPhone s hab]
  · simp only [queryTransactionsCtrl]
    rw [if_neg (not_or.mpr ⟨hq, hphone⟩), hab]

/-- C8: with a non-empty phone not yet present, `createUser` answers 201 and appends
exactly one user row with that phone; calling it again with the same phone on the
resulting store answers 400 duplicate-phone and leaves the store unchanged, so no
second row is created. -/
theorem c8_create_user_duplicate_rejected (userPhone : String)
    (name name2 : Option String) (s : Store)
    (hphone : userPhone ≠ "") (hab : findUserByPhone userPhone s = none) :
    ∃ u s1,
      createUser userPhone name s = (.created u, s1) ∧
      CreateUserResult.status (.created u) = 201 ∧
      u.phone = userPhone ∧
      s1.users = s.users ++ [u] ∧
      createUser userPhone name2 s1 = (.duplicatePhone, s1) ∧
      CreateUserResult.status .duplicatePhone = 400 := by
  have h1 : createUser userPhone name s =
      (.created { id := s.nextId, phone := userPhone, name := orNull name },
       { s with
          users := s.users ++ [{ id := s.nextId, phone := userPhone, name := orNull name }]
          nextId := s.nextId + 1 }) := by
    simp only [createUser, dbCreateUser]
    rw [if_neg hphone, hab]
  have h2 : findUserByPhone userPhone
      { s with
         users := s.users ++ [{ id := s.nextId, phone := userPhone, name := orNull name }]
         nextId := s.nextId + 1 } =
      some { id := s.nextId, phone := userPhone, name := orNull name } := by
    unfold findUserByPhone at hab ⊢
    rw [find?_append_of_none _ _ _ hab]
    simp [List.find?]
  refine ⟨_, _, h1, rfl, rfl, rfl, ?_, rfl⟩
  simp only [createUser]
  rw [if_neg hphone, h2]

/-- C10: on an internal query-engine failure the degraded result carries only the
static apology and the error message (the success-path per-field defaults are not
applied: `insights`, `suggestedCategories`, `relevantTransactions`, `totalAmount` stay
absent), and the orchestrator's 200 body then re-defaults `relevantTransactions` to
`[]` and `totalAmount` to `0` itself while its `insights` and `suggestedCategories`
stay absent from the body. -/
theorem c10_query_degraded_defaults (question userPhone msg : String)
    (s : Store) (user : User) (hq : question ≠ "") (hphone : userPhone ≠ "")
    (hfind : findUserByPhone userPhone s = some user)
    (hne : s.transactions.filter (fun t => t.userId == user.id) ≠ []) :
    queryEngineRun (.error msg) =
      { answer := "Sorry, I encountered an error while analyzing your transactions."
        insights := none
        suggestedCategories := none
        relevantTransactions := none
        totalAmount := none
        error := some msg } ∧
    queryTransactionsCtrl question userPhone (fun _ _ _ => queryEngineRun (.error msg)) s =
      (.answered
        { answer := "Sorry, I encountered an error while analyzing your transactions."
          insights := none
          suggestedCategories := none
          relevantTransactions := []
          totalAmount := 0
          transactionCount := (userTransactions user s).length }, true, s) := by
  refine ⟨rfl, ?_⟩
  have hlen : ¬ (userTransactions user s).length = 0 := by
    rw [userTransactions, sortByDateDesc_length]
    simpa using hne
  simp only [queryTransactionsCtrl, hfind]
  rw [if_neg (not_or.mpr ⟨hq, hphone⟩), if_neg hlen]
  rfl

end Trackmoji

namespace Trackmoji

/-! Concrete fixtures used by the witnesses. -/

/-- A store holding no rows. -/
def emptyStore : Store :=
  { users := [], transactions := [], credits := [], debits := [], nextId := 1 }

/-- A fully-populated credit analysis, as the model would return it. -/
def creditAnalysis : Analysis :=
  { type := some "credit"
    amount := some 500
    description := some "received 500 from mom"
    category := some "gift"
    source := some "mom"
    date := some "2024-05-01"
    confidence := some 1 }

/-- The degraded analysis the analyzer returns when the model call fails. -/
def degradedSample : Analysis :=
  analyzeTransaction "gibberish" "2024-05-01T00:00:00Z" (.error "model unavailable")

/-- An analysis whose type is outside credit/debit but passes the falsy validation. -/
def transferAnalysis : Analysis :=
  { type := some "Transfer"
    amount := some 100
    description := some "moved 100 to savings"
    category := some "transfer"
    source := some "self"
    date := none
    confidence := some 1 }

/-- A store with one user, one credit of 500 and one debit of 200, no unified rows. -/
def summaryStore : Store :=
  { users := [{ id := 1, phone := "+1555", name := none }]
    transactions := []
    credits := [{ id := 2, amount := 500, source := some "mom", description := none,
                  date := 10, userId := 1 }]
    debits := [{ id := 3, amount := 200, category := some "food", description := none,
                 date := 11, userId := 1 }]
    nextId := 4 }

/-- A store with one user owning one unified transaction row. -/
def queryStore : Store :=
  { users := [{ id := 1, phone := "+1555", name := none }]
    transactions := [{ id := 2, amount := 500, type := "credit", description := none,
                       category := none, source := some "mom", date := 10, userId := 1 }]
    credits := []
    debits := []
    nextId := 3 }

/-- A concrete query engine for witnesses (never actually consulted where used). -/
def sampleEngine : String → List TransactionRow → String → QueryAnswer :=
  fun _ _ _ => queryEngineRun (.error "unused")

/-- Witness for C1: the concrete credit request on the empty store. -/
theorem c1_process_dual_write_witness :
    truthyStr creditAnalysis.type = true ∧ truthyNum creditAnalysis.amount = true ∧
    ∃ t s',
      (processTransaction "received 500 from mom" "+1555" (fun _ _ => creditAnalysis)
        (fun _ => some 42) 7 emptyStore).2 = s' ∧
      s'.transactions = emptyStore.transactions ++ [t] ∧
      t.amount = creditAnalysis.amount.getD 0 ∧
      ∃ spec,
        (processTransaction "received 500 from mom" "+1555" (fun _ _ => creditAnalysis)
          (fun _ => some 42) 7 emptyStore).1 =
          .created t (some spec)
            { confidence := creditAnalysis.confidence, category := creditAnalysis.category,
              source := creditAnalysis.source, date := t.date } ∧
        ProcessResult.status (processTransaction "received 500 from mom" "+1555"
          (fun _ _ => creditAnalysis) (fun _ => some 42) 7 emptyStore).1 = 201 ∧
        match spec with
        | .credit c => lowerStr (creditAnalysis.type.getD "") = "credit" ∧
            s'.credits = emptyStore.credits ++ [c] ∧ s'.debits = emptyStore.debits ∧
            c.amount = t.amount ∧ c.date = t.date
        | .debit d => lowerStr (creditAnalysis.type.getD "") = "debit" ∧
            s'.debits = emptyStore.debits ++ [d] ∧ s'.credits = emptyStore.credits ∧
            d.amount = t.amount ∧ d.date = t.date :=
  ⟨by decide, by decide,
    c1_process_dual_write "received 500 from mom" "+1555" (fun _ _ => creditAnalysis)
      (fun _ => some 42) 7 emptyStore creditAnalysis rfl (by decide) (by decide)
      (by decide) (by decide) (Or.inl (by decide))⟩

/-- Witness for C2: the degraded fallback analysis (truthy type, amount 0) is rejected
with 422 and the empty store is unchanged. -/
theorem c2_invalid_analysis_rejected_422_witness :
    (truthyStr degradedSample.type = false ∨ truthyNum degradedSample.amount = false) ∧
    processTransaction "gibberish" "+1555"
      (fun t _ => analyzeTransaction t "2024-05-01T00:00:00Z" (.error "model unavailable"))
      (fun _ => none) 7 emptyStore = (.invalidAnalysis degradedSample, emptyStore) ∧
    ProcessResult.status (.invalidAnalysis degradedSample) = 422 :=
  ⟨Or.inr (by decide),
    c2_invalid_analysis_rejected_422 "gibberish" "+1555"
      (fun t _ => analyzeTransaction t "2024-05-01T00:00:00Z" (.error "model unavailable"))
      (fun _ => none) 7 emptyStore degradedSample rfl (by decide) (by decide)
      (Or.inr (by decide))⟩

/-- Witness for C4: a validated analysis of type Transfer creates the unified row with
the type case-preserved and no specific row. -/
theorem c4_unknown_type_silent_noop_witness :
    truthyStr transferAnalysis.type = true ∧
    lowerStr (transferAnalysis.type.getD "") ≠ "credit" ∧
    ∃ t s',
      processTransaction "moved 100 to savings" "+1555" (fun _ _ => transferAnalysis)
        (fun _ => some 42) 7 emptyStore =
        (.created t none
          { confidence := transferAnalysis.confidence, category := transferAnalysis.category,
            source := transferAnalysis.source, date := t.date }, s') ∧
      ProcessResult.status (processTransaction "moved 100 to savings" "+1555"
        (fun _ _ => transferAnalysis) (fun _ => some 42) 7 emptyStore).1 = 201 ∧
      s'.transactions = emptyStore.transactions ++ [t] ∧
      t.type = transferAnalysis.type.getD "" ∧
      t.amount = transferAnalysis.amount.getD 0 ∧
      s'.credits = emptyStore.credits ∧
      s'.debits = emptyStore.debits :=
  ⟨by decide, by decide,
    c4_unknown_type_silent_noop "moved 100 to savings" "+1555" (fun _ _ => transferAnalysis)
      (fun _ => some 42) 7 emptyStore transferAnalysis rfl (by decide) (by decide)
      (by decide) (by decide) (by decide) (by decide)⟩

/-- Witness for C9: the degraded analysis on a phone with no user row leaves the whole
store — the user table included — unchanged, with a 422. -/
theorem c9_reject_frame_no_user_upsert_witness :
    findUserByPhone "+1999" emptyStore = none ∧
    (processTransaction "gibberish" "+1999"
      (fun t _ => analyzeTransaction t "2024-05-01T00:00:00Z" (.error "model unavailable"))
      (fun _ => none) 7 emptyStore).2 = emptyStore ∧
    ((processTransaction "gibberish" "+1999"
      (fun t _ => analyzeTransaction t "2024-05-01T00:00:00Z" (.error "model unavailable"))
      (fun _ => none) 7 emptyStore).2).users = emptyStore.users ∧
    ProcessResult.status (processTransaction "gibberish" "+1999"
      (fun t _ => analyzeTransaction t "2024-05-01T00:00:00Z" (.error "model unavailable"))
      (fun _ => none) 7 emptyStore).1 = 422 :=
  ⟨rfl,
    c9_reject_frame_no_user_upsert "gibberish" "+1999"
      (fun t _ => analyzeTransaction t "2024-05-01T00:00:00Z" (.error "model unavailable"))
      (fun _ => none) 7 emptyStore degradedSample rfl (by decide) (by decide)
      (Or.inr (by decide)) rfl⟩

/-- Witness for C5: the one-credit-of-500, one-debit-of-200 store. -/
theorem c5_summary_balance_round_trip_witness :
    findUserByPhone "+1555" summaryStore = some { id := 1, phone := "+1555", name := none } ∧
    ∃ d, getTransactionSummary "+1555" summaryStore = .ok d ∧
      SummaryResult.status (.ok d) = 200 ∧
      d.totalDebit = ((summaryStore.debits.filter (fun r => r.userId == 
        ({ id := 1, phone := "+1555", name := none } : User).id)).map (fun r => r.amount)).sum ∧
      d.totalCredit = ((summaryStore.credits.filter (fun r => r.userId == 
        ({ id := 1, phone := "+1555", name := none } : User).id)).map (fun r => r.amount)).sum ∧
      d.balance = d.totalCredit - d.totalDebit ∧
      ∀ ts : List TransactionRow,
        getTransactionSummary "+1555" { summaryStore with transactions := ts } =
          getTransactionSummary "+1555" summaryStore :=
  ⟨rfl,
    c5_summary_balance_round_trip "+1555" summaryStore
      { id := 1, phone := "+1555", name := none } (by decide) rfl⟩

/-- Witness for C6: a user that exists in the store but owns zero transactions gets
the canned answer and the engine is not consulted. -/
theorem c6_query_empty_history_short_circuit_witness :
    summaryStore.transactions.filter (fun t => t.userId == 
      ({ id := 1, phone := "+1555", name := none } : User).id) = [] ∧
    queryTransactionsCtrl "what's my balance?" "+1555" sampleEngine summaryStore =
      (.canned "You don't have any transactions yet.", false, summaryStore) ∧
    QueryResult.status (.canned "You don't have any transactions yet.") = 200 :=
  ⟨rfl,
    c6_query_empty_history_short_circuit "what's my balance?" "+1555" sampleEngine
      summaryStore { id := 1, phone := "+1555", name := none } (by decide) (by decide)
      rfl rfl⟩

/-- Witness for C7: the same absent phone is upserted by `process` and rejected with
404 by `query`. -/
theorem c7_upsert_on_write_strict_on_query_witness :
    findUserByPhone "+1777" emptyStore = none ∧
    ((processTransaction "received 500 from mom" "+1777" (fun _ _ => creditAnalysis)
      (fun _ => some 42) 7 emptyStore).2).users =
      emptyStore.users ++ [{ id := emptyStore.nextId, phone := "+1777", name := none }] ∧
    queryTransactionsCtrl "what's my balance?" "+1777" sampleEngine emptyStore =
      (.notFound, false, emptyStore) ∧
    QueryResult.status .notFound = 404 :=
  ⟨rfl,
    c7_upsert_on_write_strict_on_query "received 500 from mom" "what's my balance?"
      "+1777" (fun _ _ => creditAnalysis) (fun _ => some 42) 7 sampleEngine emptyStore
      creditAnalysis rfl (by decide) (by decide) (by decide) (by decide) (by decide) rfl⟩

/-- Witness for C8: creating the same phone twice on the empty store. -/
theorem c8_create_user_duplicate_rejected_witness :
    findUserByPhone "+1555" emptyStore = none ∧
    ∃ u s1,
      createUser "+1555" (some "Bob") emptyStore = (.created u, s1) ∧
      CreateUserResult.status (.created u) = 201 ∧
      u.phone = "+1555" ∧
      s1.users = emptyStore.users ++ [u] ∧
      createUser "+1555" (some "Eve") s1 = (.duplicatePhone, s1) ∧
      CreateUserResult.status .duplicatePhone = 400 :=
  ⟨rfl,
    c8_create_user_duplicate_rejected "+1555" (some "Bob") (some "Eve") emptyStore
      (by decide) rfl⟩

/-- Witness for C10: the query-engine failure shape and the orchestrator shaping on a
store where the user owns one transaction. -/
theorem c10_query_degraded_defaults_witness :
    queryStore.transactions.filter (fun t => t.userId == 
      ({ id := 1, phone := "+1555", name := none } : User).id) ≠ [] ∧
    queryEngineRun (.error "model down") =
      { answer := "Sorry, I encountered an error while analyzing your transactions."
        insights := none
        suggestedCategories := none
        relevantTransactions := none
        totalAmount := none
        error := some "model down" } ∧
    queryTransactionsCtrl "what's my balance?" "+1555"
      (fun _ _ _ => queryEngineRun (.error "model down")) queryStore =
      (.answered
        { answer := "Sorry, I encountered an error while analyzing your transactions."
          insights := none
          suggestedCategories := none
          relevantTransactions := []
          totalAmount := 0
          transactionCount :=
            (userTransactions { id := 1, phone := "+1555", name := none } queryStore).length },
        true, queryStore) :=
  ⟨by decide,
    c10_query_degraded_defaults "what's my balance?" "+1555" "model down" queryStore
      { id := 1, phone := "+1555", name := none } (by decide) (by decide) rfl
      (by decide)⟩

end Trackmoji
